import Mathlib

/-!
Shallow embedding of `src/calc.py` (ceramic unit-economics calculator).

Numeric model: the Python code computes with `int` and `float`; the spec's
data model declares the quantities as decimals/integers, so we embed all
non-integer quantities as exact rationals (`ℚ`) and Python `int` values as
`ℤ`.  Python's `int(x)` conversion truncates toward zero; `x or 1` on an
integer replaces exactly the value `0` with `1`.  Division on `ℚ` is total
(division by zero yields 0), matching the fact that the code only divides
by `sellable`, which is never 0.
-/

namespace CeramicCalc

/-- Python `int(x)` applied to a real/float value: truncation toward zero. -/
def py_int (q : ℚ) : ℤ := if 0 ≤ q then ⌊q⌋ else -⌊-q⌋

/-- Python `t or 1` on an integer: `0` is falsy and is replaced by `1`;
every other integer (negative ones included) is kept. -/
def int_or_one (t : ℤ) : ℤ := if t = 0 then 1 else t

/-- One row of the materials table (`materials_df`): a name and a unit
price (columns "Материал" and "Цена (₽)"). -/
structure Material where
  name : String
  price : ℚ
deriving DecidableEq, Repr

/-- The default materials rows installed into `st.session_state.materials_df`
at startup (lines 338-346 of `calc.py`). -/
def default_materials : List Material :=
  [⟨"Глазурь (осн.)", 18.58⟩, ⟨"Глазурь (декор)", 21.18⟩,
   ⟨"Глина (масса 1)", 58.28⟩, ⟨"Глина (масса 2)", 18.67⟩]

/-- The tuple returned by `calculate_metrics`
(`cogs_unit, sellable, u_prod, u_mark, u_comm, u_tax, u_profit, t_profit, margin_val`). -/
structure Metrics where
  cogs_unit : ℚ
  sellable : ℤ
  u_prod : ℚ
  u_mark : ℚ
  u_comm : ℚ
  u_tax : ℚ
  u_profit : ℚ
  t_profit : ℚ
  margin_val : ℚ
deriving DecidableEq, Repr

/-- `calculate_metrics` from `calc.py` (lines 361-377).  `mat_df` is
represented by its list of rows; `mat_df["Цена (₽)"].sum()` is the sum of
the price column.  `b_size` is a Python int; the percentage and money
arguments are numeric. -/
def calculate_metrics (mat_df : List Material) (labor firing pack : ℚ)
    (b_size : ℤ) (reject mktg price tax comm : ℚ) : Metrics :=
  let mat_cost := (mat_df.map Material.price).sum
  let cogs_unit := mat_cost + labor + firing + pack
  let sellable := int_or_one (py_int ((b_size : ℚ) * (1 - reject / 100)))
  let u_prod := (cogs_unit * (b_size : ℚ)) / (sellable : ℚ)
  let u_mark := mktg / (sellable : ℚ)
  let u_comm := price * (comm / 100)
  let u_tax := price * (tax / 100)
  let u_profit := price - (u_prod + u_mark + u_comm + u_tax)
  let t_profit := u_profit * (sellable : ℚ)
  let margin_val := if price > 0 then u_profit / price * 100 else 0
  ⟨cogs_unit, sellable, u_prod, u_mark, u_comm, u_tax, u_profit, t_profit, margin_val⟩

/-- The `inputs` dict stored inside a snapshot by the save button handler
(lines 446-456 of `calc.py`): labor/firing/pack/marketing/price are saved as
floats, batch/reject/tax/mp as ints. -/
structure SnapInputs where
  labor_unit : ℚ
  firing_unit : ℚ
  pack_unit : ℚ
  batch_size : ℤ
  reject_rate : ℤ
  marketing_total : ℚ
  sell_price : ℚ
  tax_pct : ℤ
  mp_pct : ℤ
deriving DecidableEq, Repr

/-- The `metrics` dict stored inside a snapshot (lines 458-469). -/
structure SnapMetrics where
  sell_price : ℚ
  cogs_u : ℚ
  sellable_u : ℤ
  unit_profit : ℚ
  total_profit : ℚ
  margin : ℚ
  u_prod : ℚ
  u_mark : ℚ
  u_comm : ℚ
  u_tax : ℚ
deriving DecidableEq, Repr

/-- The snapshot dict built by the save button handler (lines 442-470).
`saved_at` is the injected wall-clock string (`_now_iso_amsterdam()`). -/
structure Snapshot where
  schema : ℤ
  saved_at : String
  title : String
  inputs : SnapInputs
  materials : List Material
  metrics : SnapMetrics
deriving DecidableEq, Repr

/-- Assembly of the snapshot from the current widget values and the tuple
returned by `calculate_metrics` (save button handler, lines 442-470). -/
def build_snapshot (saved_at title : String) (mat_df : List Material)
    (labor firing pack : ℚ) (b_size reject : ℤ) (mktg price : ℚ)
    (tax comm : ℤ) (m : Metrics) : Snapshot :=
  { schema := 1
    saved_at := saved_at
    title := title
    inputs := ⟨labor, firing, pack, b_size, reject, mktg, price, tax, comm⟩
    materials := mat_df
    metrics := ⟨price, m.cogs_unit, m.sellable, m.u_profit, m.t_profit,
                m.margin_val, m.u_prod, m.u_mark, m.u_comm, m.u_tax⟩ }

/-- One row of the detailed breakdown table of the PDF: per-unit value,
per-batch value and share-of-price (the numeric contents of `data_details`
before string formatting). -/
structure DetailRow where
  per_unit : ℚ
  per_batch : ℚ
  share_pct : ℚ
deriving DecidableEq, Repr

/-- `get_pct` from `build_pdf_bytes` (line 141-142): the share of `total`,
as a percentage, with `0` when `total` is not positive. -/
def get_pct (val total : ℚ) : ℚ := if total > 0 then val / total * 100 else 0

/-- The six data rows of `data_details` in `build_pdf_bytes` (lines 147-157). -/
structure DetailTable where
  revenue : DetailRow
  production : DetailRow
  marketing : DetailRow
  commission : DetailRow
  tax : DetailRow
  net_profit : DetailRow
deriving DecidableEq, Repr

/-- The numeric contents of the detailed breakdown table of
`build_pdf_bytes` (lines 129-157), read from the snapshot's metrics dict.
The revenue row's share is the fixed string "100%", modelled as `100`;
the PDF formats per-unit cells to 2 decimals, per-batch cells to 0
decimals and shares to 1 decimal, which is presentation only. -/
def pdf_detail_table (metrics : SnapMetrics) : DetailTable :=
  let sell_price := metrics.sell_price
  let sellable_u := metrics.sellable_u
  let u_prod := metrics.u_prod
  let u_mark := metrics.u_mark
  let u_comm := metrics.u_comm
  let u_tax := metrics.u_tax
  let u_prof := metrics.unit_profit
  let total_revenue := sell_price * (sellable_u : ℚ)
  { revenue := ⟨sell_price, total_revenue, 100⟩
    production := ⟨u_prod, u_prod * (sellable_u : ℚ), get_pct u_prod sell_price⟩
    marketing := ⟨u_mark, u_mark * (sellable_u : ℚ), get_pct u_mark sell_price⟩
    commission := ⟨u_comm, u_comm * (sellable_u : ℚ), get_pct u_comm sell_price⟩
    tax := ⟨u_tax, u_tax * (sellable_u : ℚ), get_pct u_tax sell_price⟩
    net_profit := ⟨u_prof, metrics.total_profit, get_pct u_prof sell_price⟩ }

/-- The live editing buffer: the `st.session_state` keys holding the
current input widgets (`calc_title`, the numeric inputs and sliders, and
the materials data-editor `materials_df`). -/
structure SessionInputs where
  calc_title : String
  labor_unit : ℚ
  firing_unit : ℚ
  pack_unit : ℚ
  batch_size : ℤ
  reject_rate : ℤ
  marketing_total : ℚ
  sell_price : ℚ
  tax_pct : ℤ
  mp_pct : ℤ
  materials_df : List Material
deriving DecidableEq, Repr

/-- `load_calculation` from `calc.py` (lines 246-268), restricted to
snapshots of the shape the save handler stores (every `inputs` key
present, so the `inputs.get(key, current)` fallbacks never fire for the
scalar fields).  The materials buffer, however, is only replaced under
`if mats:` — a falsy (empty) saved materials list leaves the current
`materials_df` in place. -/
def load_calculation (state : SessionInputs) (snapshot_data : Snapshot) : SessionInputs :=
  { calc_title := snapshot_data.title
    labor_unit := snapshot_data.inputs.labor_unit
    firing_unit := snapshot_data.inputs.firing_unit
    pack_unit := snapshot_data.inputs.pack_unit
    batch_size := snapshot_data.inputs.batch_size
    reject_rate := snapshot_data.inputs.reject_rate
    marketing_total := snapshot_data.inputs.marketing_total
    sell_price := snapshot_data.inputs.sell_price
    tax_pct := snapshot_data.inputs.tax_pct
    mp_pct := snapshot_data.inputs.mp_pct
    materials_df := if snapshot_data.materials.isEmpty then state.materials_df
                    else snapshot_data.materials }

/-- A row of the Supabase `calculations` table as inserted by
`_save_to_supabase` (lines 208-212): title, the snapshot, and the PDF
bytes (stored base64-encoded; the encoding is a bijection, so we keep the
raw bytes, modelled as a list of byte values). -/
structure SupabaseRow where
  title : String
  snapshot : Snapshot
  pdf_base64 : List ℕ
deriving DecidableEq, Repr

/-- The configured persistent backend: its stored rows plus the id the
next insert response will carry (ids are opaque strings chosen by the
store). -/
structure Backend where
  rows : List SupabaseRow
  next_id : String
deriving DecidableEq, Repr

/-- `_save_to_supabase` from `calc.py` (lines 202-217).  `sb` is
`_get_supabase_client()`: `none` when no persistent backend is configured,
in which case the function returns `None` without touching any store;
otherwise one row is inserted and the response id returned.  The result is
the backend after the call together with the returned id. -/
def _save_to_supabase (sb : Option Backend) (snapshot : Snapshot)
    (pdf_bytes : List ℕ) : Option Backend × Option String :=
  match sb with
  | none => (none, none)
  | some b =>
      (some { b with rows := b.rows ++ [⟨snapshot.title, snapshot, pdf_bytes⟩] },
       some b.next_id)

/-- One entry of the in-session history list
(`st.session_state.history`, lines 487-495): the code stores formatted
strings of the wall-clock time, the batch profit, the margin and the
price; we keep the clock string and the numeric values. -/
structure HistEntry where
  time : String
  total_profit : ℚ
  margin : ℚ
  price : ℚ
deriving DecidableEq, Repr

/-- The observable outcome of one press of the save button. -/
structure SaveState where
  last_pdf : Option (String × List ℕ)
  pdf_error_reported : Option String
  saved_id : Option String
  backend : Option Backend
  history : List HistEntry
deriving DecidableEq, Repr

/-- The save button handler (lines 441-503 of `calc.py`).  `pdf_result`
is the outcome of `build_pdf_bytes snapshot`: `Except.ok` the bytes, or
`Except.error` the raised message (rendering availability depends on the
environment, so the outcome is a parameter).  On error the handler clears
`last_pdf`, reports the error with `st.error`, and sets `pdf_bytes = None`;
`_save_to_supabase` runs only under `if pdf_bytes is not None`; the
in-session history entry is inserted at the front unconditionally. -/
def save_button_flow (sb : Option Backend) (snapshot : Snapshot)
    (pdf_result : Except String (List ℕ)) (pdf_uuid now_str : String)
    (history : List HistEntry) : SaveState :=
  let pdf_bytes : Option (List ℕ) :=
    match pdf_result with
    | .ok b => some b
    | .error _ => none
  let last_pdf : Option (String × List ℕ) :=
    match pdf_result with
    | .ok b => some (pdf_uuid, b)
    | .error _ => none
  let pdf_error_reported : Option String :=
    match pdf_result with
    | .ok _ => none
    | .error e => some e
  let saved : Option Backend × Option String :=
    match pdf_bytes with
    | none => (sb, none)
    | some b => _save_to_supabase sb snapshot b
  let entry : HistEntry :=
    ⟨now_str, snapshot.metrics.total_profit, snapshot.metrics.margin,
     snapshot.metrics.sell_price⟩
  { last_pdf := last_pdf
    pdf_error_reported := pdf_error_reported
    saved_id := saved.2
    backend := saved.1
    history := entry :: history }

/-! Projection lemmas for `calculate_metrics`, read off its definition. -/

lemma calculate_metrics_cogs_unit (mat_df : List Material) (labor firing pack : ℚ)
    (b_size : ℤ) (reject mktg price tax comm : ℚ) :
    (calculate_metrics mat_df labor firing pack b_size reject mktg price tax comm).cogs_unit
      = (mat_df.map Material.price).sum + labor + firing + pack := rfl

lemma calculate_metrics_sellable (mat_df : List Material) (labor firing pack : ℚ)
    (b_size : ℤ) (reject mktg price tax comm : ℚ) :
    (calculate_metrics mat_df labor firing pack b_size reject mktg price tax comm).sellable
      = int_or_one (py_int ((b_size : ℚ) * (1 - reject / 100))) := rfl

lemma calculate_metrics_u_prod (mat_df : List Material) (labor firing pack : ℚ)
    (b_size : ℤ) (reject mktg price tax comm : ℚ) :
    (calculate_metrics mat_df labor firing pack b_size reject mktg price tax comm).u_prod
      = ((calculate_metrics mat_df labor firing pack b_size reject mktg price tax comm).cogs_unit
          * (b_size : ℚ))
        / (((calculate_metrics mat_df labor firing pack b_size reject mktg price tax comm).sellable : ℤ) : ℚ) := rfl

lemma calculate_metrics_u_mark (mat_df : List Material) (labor firing pack : ℚ)
    (b_size : ℤ) (reject mktg price tax comm : ℚ) :
    (calculate_metrics mat_df labor firing pack b_size reject mktg price tax comm).u_mark
      = mktg / (((calculate_metrics mat_df labor firing pack b_size reject mktg price tax comm).sellable : ℤ) : ℚ) := rfl

lemma calculate_metrics_u_profit (mat_df : List Material) (labor firing pack : ℚ)
    (b_size : ℤ) (reject mktg price tax comm : ℚ) :
    (calculate_metrics mat_df labor firing pack b_size reject mktg price tax comm).u_profit
      = price - ((calculate_metrics mat_df labor firing pack b_size reject mktg price tax comm).u_prod
          + (calculate_metrics mat_df labor firing pack b_size reject mktg price tax comm).u_mark
          + (calculate_metrics mat_df labor firing pack b_size reject mktg price tax comm).u_comm
          + (calculate_metrics mat_df labor firing pack b_size reject mktg price tax comm).u_tax) := rfl

lemma calculate_metrics_t_profit (mat_df : List Material) (labor firing pack : ℚ)
    (b_size : ℤ) (reject mktg price tax comm : ℚ) :
    (calculate_metrics mat_df labor firing pack b_size reject mktg price tax comm).t_profit
      = (calculate_metrics mat_df labor firing pack b_size reject mktg price tax comm).u_profit
        * (((calculate_metrics mat_df labor firing pack b_size reject mktg price tax comm).sellable : ℤ) : ℚ) := rfl

lemma calculate_metrics_margin_val (mat_df : List Material) (labor firing pack : ℚ)
    (b_size : ℤ) (reject mktg price tax comm : ℚ) :
    (calculate_metrics mat_df labor firing pack b_size reject mktg price tax comm).margin_val
      = if price > 0
        then (calculate_metrics mat_df labor firing pack b_size reject mktg price tax comm).u_profit / price * 100
        else 0 := rfl

/-! Arithmetic facts about the truncation and the `or 1` guard. -/

lemma py_int_of_nonneg {q : ℚ} (hq : 0 ≤ q) : py_int q = ⌊q⌋ := if_pos hq

lemma int_or_one_eq_max {t : ℤ} (ht : 0 ≤ t) : int_or_one t = max 1 t := by
  unfold int_or_one
  rcases eq_or_lt_of_le ht with h | h
  · simp [← h]
  · rw [if_neg (by omega), max_eq_right (by omega)]

lemma int_or_one_ne_zero (t : ℤ) : int_or_one t ≠ 0 := by
  unfold int_or_one
  split <;> omega

lemma sellable_factor_nonneg {b_size : ℤ} {reject : ℚ}
    (hb : 0 ≤ b_size) (hr1 : reject < 100) :
    (0 : ℚ) ≤ (b_size : ℚ) * (1 - reject / 100) := by
  apply mul_nonneg
  · exact_mod_cast hb
  · nlinarith

/-- C2: for every batchSize ≥ 1 and rejectRatePct ∈ [0,100), the compute
operation returns `sellableUnits = max 1 ⌊batchSize * (1 - rejectRatePct/100)⌋`;
the truncated value is nonnegative on this domain, so Python's
toward-zero `int()` agrees with the floor and the `or 1` guard agrees
with a clamp to 1. -/
theorem C2_sellable_is_clamped_floor (mat_df : List Material) (labor firing pack : ℚ)
    (b_size : ℤ) (reject mktg price tax comm : ℚ)
    (hb : 1 ≤ b_size) (hr0 : 0 ≤ reject) (hr1 : reject < 100) :
    (calculate_metrics mat_df labor firing pack b_size reject mktg price tax comm).sellable
      = max 1 ⌊(b_size : ℚ) * (1 - reject / 100)⌋ := by
  have hx : (0 : ℚ) ≤ (b_size : ℚ) * (1 - reject / 100) :=
    sellable_factor_nonneg (by omega) hr1
  rw [calculate_metrics_sellable, py_int_of_nonneg hx,
    int_or_one_eq_max (Int.floor_nonneg.mpr hx)]

/-- Witness for C2 at the claim's own example: batchSize = 1,
rejectRatePct = 99 gives sellableUnits = max 1 ⌊0.01⌋ = 1, not 0. -/
theorem C2_sellable_is_clamped_floor_witness :
    (1 : ℤ) ≤ 1 ∧ (0 : ℚ) ≤ 99 ∧ (99 : ℚ) < 100 ∧
    (calculate_metrics [] 0 0 0 1 99 0 0 0 0).sellable
      = max 1 ⌊(1 : ℤ) * ((1 : ℚ) - 99 / 100)⌋ ∧
    (calculate_metrics [] 0 0 0 1 99 0 0 0 0).sellable = 1 := by
  refine ⟨by norm_num, by norm_num, by norm_num, ?_, ?_⟩
  · exact_mod_cast C2_sellable_is_clamped_floor [] 0 0 0 1 99 0 0 0 0
      (by norm_num) (by norm_num) (by norm_num)
  · norm_num [calculate_metrics, py_int, int_or_one]

/-- C1: for every BatchInputs in the declared domain (batchSize ≥ 1,
rejectRatePct ∈ [0,100), all cost fields ≥ 0), the compute operation
returns `cogsUnit` as the sum of the material unit costs with labor,
firing and packaging, and `unitProd = cogsUnit * batchSize / sellableUnits`. -/
theorem C1_unit_prod_reallocates_full_batch_cost (mat_df : List Material)
    (labor firing pack : ℚ) (b_size : ℤ) (reject mktg price tax comm : ℚ)
    (hb : 1 ≤ b_size) (hr0 : 0 ≤ reject) (hr1 : reject < 100)
    (hm : ∀ m ∈ mat_df, (0 : ℚ) ≤ m.price)
    (hlabor : 0 ≤ labor) (hfiring : 0 ≤ firing) (hpack : 0 ≤ pack)
    (hmktg : 0 ≤ mktg) (hprice : 0 ≤ price) :
    (calculate_metrics mat_df labor firing pack b_size reject mktg price tax comm).cogs_unit
        = (mat_df.map Material.price).sum + labor + firing + pack ∧
    (calculate_metrics mat_df labor firing pack b_size reject mktg price tax comm).u_prod
        = (calculate_metrics mat_df labor firing pack b_size reject mktg price tax comm).cogs_unit
            * (b_size : ℚ)
          / (((calculate_metrics mat_df labor firing pack b_size reject mktg price tax comm).sellable : ℤ) : ℚ) :=
  ⟨rfl, rfl⟩

/-- Witness for C1 at the spec's Example 1: the default materials sum to
116.71, labor 150, firing 20, packaging 30 give cogsUnit = 316.71;
batchSize 100 with 5% rejects gives 95 sellable units and
unitProd = 316.71·100/95, which rounds to 333.38 at 2 decimals
(⌊x·100 + 1/2⌋ = 33338). -/
theorem C1_unit_prod_reallocates_full_batch_cost_witness :
    ((calculate_metrics default_materials 150 20 30 100 5 5000 1200 6 20).cogs_unit = 316.71 ∧
     (calculate_metrics default_materials 150 20 30 100 5 5000 1200 6 20).sellable = 95 ∧
     (calculate_metrics default_materials 150 20 30 100 5 5000 1200 6 20).u_prod
        = 316.71 * 100 / 95 ∧
     ⌊(calculate_metrics default_materials 150 20 30 100 5 5000 1200 6 20).u_prod * 100
        + 1 / 2⌋ = 33338) ∧
    (calculate_metrics default_materials 150 20 30 100 5 5000 1200 6 20).u_prod
        = (calculate_metrics default_materials 150 20 30 100 5 5000 1200 6 20).cogs_unit
            * ((100 : ℤ) : ℚ)
          / (((calculate_metrics default_materials 150 20 30 100 5 5000 1200 6 20).sellable : ℤ) : ℚ) := by
  have h := C1_unit_prod_reallocates_full_batch_cost default_materials 150 20 30 100 5 5000 1200 6 20
    (by norm_num) (by norm_num) (by norm_num)
    (by intro m hm; fin_cases hm <;> norm_num [default_materials])
    (by norm_num) (by norm_num) (by norm_num) (by norm_num) (by norm_num)
  refine ⟨⟨?_, ?_, ?_, ?_⟩, h.2⟩ <;>
    norm_num [calculate_metrics, default_materials, py_int, int_or_one]

/-- Counterexample to C5 as stated: with materials costing 100 and all
other inputs 0, running the compute operation at batchSize = 0 yields
metrics (unitProd = 0) that no batchSize ≥ 1 can produce (every b ≥ 1
yields unitProd = 100), so the operation does not compute "as if
batchSize were at least 1". -/
theorem C5_counterexample :
    ¬ ∃ b : ℤ, 1 ≤ b ∧
      calculate_metrics [⟨"m", 100⟩] 0 0 0 b 0 0 0 0 0
        = calculate_metrics [⟨"m", 100⟩] 0 0 0 0 0 0 0 0 0 := by
  rintro ⟨b, hb, heq⟩
  have h0 : (calculate_metrics [⟨"m", 100⟩] 0 0 0 0 0 0 0 0 0).u_prod = 0 := by
    norm_num [calculate_metrics, py_int, int_or_one]
  have hsell : (calculate_metrics [⟨"m", 100⟩] 0 0 0 b 0 0 0 0 0).sellable = b := by
    rw [calculate_metrics_sellable]
    have : ((b : ℚ) * (1 - 0 / 100)) = (b : ℚ) := by ring
    rw [this, py_int_of_nonneg (by exact_mod_cast (by omega : (0:ℤ) ≤ b)),
      Int.floor_intCast]
    unfold int_or_one
    rw [if_neg (by omega)]
  have hbq : ((b : ℤ) : ℚ) ≠ 0 := by
    exact_mod_cast (by omega : b ≠ 0)
  have hbprod : (calculate_metrics [⟨"m", 100⟩] 0 0 0 b 0 0 0 0 0).u_prod = 100 := by
    rw [calculate_metrics_u_prod, hsell, calculate_metrics_cogs_unit]
    field_simp
  rw [heq, h0] at hbprod
  norm_num at hbprod

/-- C5 amended: the compute operation does not coerce batchSize at all; it
uses the raw value in every formula and only guards the derived
sellableUnits (an exact-zero truncated value becomes 1).  In particular
batchSize = 0 gives sellableUnits = 1, unitProd = 0 (not the ≥ cogsUnit
value any batchSize ≥ 1 would give) and unitMarketing = marketingTotal. -/
theorem C5_batch_size_not_coerced (mat_df : List Material) (labor firing pack : ℚ)
    (reject mktg price tax comm : ℚ) :
    (calculate_metrics mat_df labor firing pack 0 reject mktg price tax comm).sellable = 1 ∧
    (calculate_metrics mat_df labor firing pack 0 reject mktg price tax comm).u_prod = 0 ∧
    (calculate_metrics mat_df labor firing pack 0 reject mktg price tax comm).u_mark = mktg := by
  have hsell : (calculate_metrics mat_df labor firing pack 0 reject mktg price tax comm).sellable = 1 := by
    rw [calculate_metrics_sellable]
    norm_num [py_int, int_or_one]
  refine ⟨hsell, ?_, ?_⟩
  · rw [calculate_metrics_u_prod, hsell]
    norm_num
  · rw [calculate_metrics_u_mark, hsell]
    norm_num

/-- C7: conservation of price — the four per-unit cost components and the
unit profit sum exactly to the sell price, equivalently
`unitProfit = sellPrice - (unitProd + unitMarketing + unitCommission + unitTax)`,
with no clamping; the final conjunct shows unitProfit going negative
(cost 100, price 0 gives unitProfit = -100). -/
theorem C7_price_conservation (mat_df : List Material) (labor firing pack : ℚ)
    (b_size : ℤ) (reject mktg price tax comm : ℚ) :
    ((calculate_metrics mat_df labor firing pack b_size reject mktg price tax comm).u_prod
      + (calculate_metrics mat_df labor firing pack b_size reject mktg price tax comm).u_mark
      + (calculate_metrics mat_df labor firing pack b_size reject mktg price tax comm).u_comm
      + (calculate_metrics mat_df labor firing pack b_size reject mktg price tax comm).u_tax)
      + (calculate_metrics mat_df labor firing pack b_size reject mktg price tax comm).u_profit
      = price ∧
    (calculate_metrics mat_df labor firing pack b_size reject mktg price tax comm).u_profit
      = price - ((calculate_metrics mat_df labor firing pack b_size reject mktg price tax comm).u_prod
          + (calculate_metrics mat_df labor firing pack b_size reject mktg price tax comm).u_mark
          + (calculate_metrics mat_df labor firing pack b_size reject mktg price tax comm).u_comm
          + (calculate_metrics mat_df labor firing pack b_size reject mktg price tax comm).u_tax) ∧
    (calculate_metrics [⟨"m", 100⟩] 0 0 0 1 0 0 0 0 0).u_profit = -100 := by
  refine ⟨?_, rfl, ?_⟩
  · have h := calculate_metrics_u_profit mat_df labor firing pack b_size reject mktg price tax comm
    linarith
  · norm_num [calculate_metrics, py_int, int_or_one]

/-- C8: the compute operation returns marginPct = 0 when sellPrice = 0
(the guarded branch, not a division), and
marginPct = unitProfit / sellPrice · 100 when sellPrice > 0. -/
theorem C8_margin_guarded_division (mat_df : List Material) (labor firing pack : ℚ)
    (b_size : ℤ) (reject mktg price tax comm : ℚ) :
    (price = 0 →
      (calculate_metrics mat_df labor firing pack b_size reject mktg price tax comm).margin_val = 0) ∧
    (0 < price →
      (calculate_metrics mat_df labor firing pack b_size reject mktg price tax comm).margin_val
        = (calculate_metrics mat_df labor firing pack b_size reject mktg price tax comm).u_profit
            / price * 100) := by
  constructor
  · intro hp
    rw [calculate_metrics_margin_val, if_neg (by rw [hp]; exact lt_irrefl 0)]
  · intro hp
    rw [calculate_metrics_margin_val, if_pos hp]

/-- Witness for C8: at sellPrice = 0 (with the default cost inputs) the
margin is 0, and at sellPrice = 1200 it is unitProfit/1200·100. -/
theorem C8_margin_guarded_division_witness :
    (calculate_metrics default_materials 150 20 30 100 5 5000 0 6 20).margin_val = 0 ∧
    (calculate_metrics default_materials 150 20 30 100 5 5000 1200 6 20).margin_val
      = (calculate_metrics default_materials 150 20 30 100 5 5000 1200 6 20).u_profit
          / 1200 * 100 :=
  ⟨(C8_margin_guarded_division default_materials 150 20 30 100 5 5000 0 6 20).1 rfl,
   (C8_margin_guarded_division default_materials 150 20 30 100 5 5000 1200 6 20).2 (by norm_num)⟩

/-- C10: for batchSize ≥ 0 and rejectRatePct ∈ [0,100) the computed
sellableUnits is ≥ 1; for all inputs whatsoever it is nonzero (the `or 1`
guard replaces exactly the value 0, so the divisions by sellableUnits are
never by zero); and the guard does not extend a positivity guarantee to
negative batchSize: at batchSize = -1, rejectRatePct = 0 the truncation
toward zero leaves sellableUnits = -1 < 0. -/
theorem C10_sellable_guard_scope :
    (∀ (mat_df : List Material) (labor firing pack : ℚ) (b_size : ℤ)
        (reject mktg price tax comm : ℚ),
      0 ≤ b_size → 0 ≤ reject → reject < 100 →
      1 ≤ (calculate_metrics mat_df labor firing pack b_size reject mktg price tax comm).sellable) ∧
    (∀ (mat_df : List Material) (labor firing pack : ℚ) (b_size : ℤ)
        (reject mktg price tax comm : ℚ),
      (calculate_metrics mat_df labor firing pack b_size reject mktg price tax comm).sellable ≠ 0) ∧
    ((calculate_metrics [] 0 0 0 (-1) 0 0 0 0 0).sellable = -1 ∧
      (calculate_metrics [] 0 0 0 (-1) 0 0 0 0 0).sellable < 0) := by
  refine ⟨?_, ?_, ?_, ?_⟩
  · intro mat_df labor firing pack b_size reject mktg price tax comm hb hr0 hr1
    have hx : (0 : ℚ) ≤ (b_size : ℚ) * (1 - reject / 100) :=
      sellable_factor_nonneg hb hr1
    rw [calculate_metrics_sellable, py_int_of_nonneg hx,
      int_or_one_eq_max (Int.floor_nonneg.mpr hx)]
    exact le_max_left 1 _
  · intro mat_df labor firing pack b_size reject mktg price tax comm
    rw [calculate_metrics_sellable]
    exact int_or_one_ne_zero _
  · norm_num [calculate_metrics, py_int, int_or_one]
  · norm_num [calculate_metrics, py_int, int_or_one]

/-- Witness for C10: batchSize = 0 with 50% rejects still yields
sellableUnits ≥ 1, and with batchSize = 5, 0% rejects the sellableUnits
value is nonzero. -/
theorem C10_sellable_guard_scope_witness :
    (0 : ℤ) ≤ 0 ∧ (0 : ℚ) ≤ 50 ∧ (50 : ℚ) < 100 ∧
    1 ≤ (calculate_metrics [] 0 0 0 0 50 0 0 0 0).sellable ∧
    (calculate_metrics [] 0 0 0 5 0 0 0 0 0).sellable ≠ 0 :=
  ⟨by norm_num, by norm_num, by norm_num,
   C10_sellable_guard_scope.1 [] 0 0 0 0 50 0 0 0 0 (by norm_num) (by norm_num) (by norm_num),
   C10_sellable_guard_scope.2.1 [] 0 0 0 5 0 0 0 0 0⟩

/-- C6: the engine returns totalProfit = unitProfit · sellableUnits
exactly, and the net-profit row's per-batch cell of the PDF's detailed
breakdown table, built from the stored snapshot of the same computation,
carries exactly that totalProfit. -/
theorem C6_total_profit_cross_check (saved_at title : String) (mat_df : List Material)
    (labor firing pack : ℚ) (b_size reject : ℤ) (mktg price : ℚ) (tax comm : ℤ) :
    (calculate_metrics mat_df labor firing pack b_size (reject : ℚ) mktg price (tax : ℚ) (comm : ℚ)).t_profit
      = (calculate_metrics mat_df labor firing pack b_size (reject : ℚ) mktg price (tax : ℚ) (comm : ℚ)).u_profit
        * (((calculate_metrics mat_df labor firing pack b_size (reject : ℚ) mktg price (tax : ℚ) (comm : ℚ)).sellable : ℤ) : ℚ) ∧
    (pdf_detail_table
        (build_snapshot saved_at title mat_df labor firing pack b_size reject mktg price tax comm
          (calculate_metrics mat_df labor firing pack b_size (reject : ℚ) mktg price (tax : ℚ) (comm : ℚ))).metrics).net_profit.per_batch
      = (calculate_metrics mat_df labor firing pack b_size (reject : ℚ) mktg price (tax : ℚ) (comm : ℚ)).t_profit :=
  ⟨rfl, rfl⟩

/-- A concrete live editing buffer holding the app's default widget
values (lines 338-357 of `calc.py`). -/
def default_session : SessionInputs :=
  { calc_title := ""
    labor_unit := 150
    firing_unit := 20
    pack_unit := 30
    batch_size := 100
    reject_rate := 5
    marketing_total := 5000
    sell_price := 1200
    tax_pct := 6
    mp_pct := 20
    materials_df := default_materials }

/-- A concrete stored snapshot whose materials list is empty (the
data-editor allows deleting every row before saving); every scalar field
differs from `default_session`. -/
def empty_materials_snapshot : Snapshot :=
  { schema := 1
    saved_at := "2024-06-01T12:00:00+02:00"
    title := "Без материалов"
    inputs := ⟨1, 2, 3, 10, 0, 4, 5, 1, 2⟩
    materials := []
    metrics := ⟨5, 6, 10, -1, -10, -20, 1, 1, 1, 1⟩ }

/-- Counterexample to C3 as stated: loading a stored snapshot whose
materials list is empty does NOT overwrite the live materials buffer —
the current materials survive, so the restore merges rather than
overwriting every field. -/
theorem C3_counterexample :
    (load_calculation default_session empty_materials_snapshot).materials_df
        ≠ empty_materials_snapshot.materials ∧
    (load_calculation default_session empty_materials_snapshot).materials_df
        = default_session.materials_df := by
  constructor
  · simp [load_calculation, empty_materials_snapshot, default_session, default_materials]
  · simp [load_calculation, empty_materials_snapshot]

/-- C3 amended: `load_calculation` overwrites the title and every scalar
input field of the live buffer with the stored snapshot's values, and
overwrites the materials list when the snapshot's materials list is
nonempty; an empty saved materials list leaves the current materials
buffer unchanged (the one merge-like exception). -/
theorem C3_load_overwrites_all_but_empty_materials (state : SessionInputs) (snap : Snapshot) :
    (load_calculation state snap).calc_title = snap.title ∧
    (load_calculation state snap).labor_unit = snap.inputs.labor_unit ∧
    (load_calculation state snap).firing_unit = snap.inputs.firing_unit ∧
    (load_calculation state snap).pack_unit = snap.inputs.pack_unit ∧
    (load_calculation state snap).batch_size = snap.inputs.batch_size ∧
    (load_calculation state snap).reject_rate = snap.inputs.reject_rate ∧
    (load_calculation state snap).marketing_total = snap.inputs.marketing_total ∧
    (load_calculation state snap).sell_price = snap.inputs.sell_price ∧
    (load_calculation state snap).tax_pct = snap.inputs.tax_pct ∧
    (load_calculation state snap).mp_pct = snap.inputs.mp_pct ∧
    (snap.materials ≠ [] → (load_calculation state snap).materials_df = snap.materials) ∧
    (snap.materials = [] → (load_calculation state snap).materials_df = state.materials_df) := by
  refine ⟨rfl, rfl, rfl, rfl, rfl, rfl, rfl, rfl, rfl, rfl, ?_, ?_⟩
  · intro h
    simp [load_calculation, List.isEmpty_iff, h]
  · intro h
    simp [load_calculation, h]

/-- Witness for C3 amended: loading `empty_materials_snapshot` into the
default buffer overwrites the title and scalars and keeps the current
materials (the snapshot's list is empty). -/
theorem C3_load_overwrites_all_but_empty_materials_witness :
    (load_calculation default_session empty_materials_snapshot).calc_title
        = empty_materials_snapshot.title ∧
    (load_calculation default_session empty_materials_snapshot).labor_unit
        = empty_materials_snapshot.inputs.labor_unit ∧
    empty_materials_snapshot.materials = [] ∧
    (load_calculation default_session empty_materials_snapshot).materials_df
        = default_session.materials_df :=
  ⟨(C3_load_overwrites_all_but_empty_materials default_session empty_materials_snapshot).1,
   (C3_load_overwrites_all_but_empty_materials default_session empty_materials_snapshot).2.1,
   rfl,
   (C3_load_overwrites_all_but_empty_materials default_session empty_materials_snapshot).2.2.2.2.2.2.2.2.2.2.2 rfl⟩

/-- A configured persistent backend holding no rows yet. -/
def demo_backend : Backend := ⟨[], "row-1"⟩

/-- A concrete snapshot used to exercise the save flow. -/
def demo_snapshot : Snapshot :=
  { schema := 1
    saved_at := "2024-06-01T12:00:00+02:00"
    title := "Кружка 350 мл"
    inputs := ⟨150, 20, 30, 100, 5, 5000, 1200, 6, 20⟩
    materials := default_materials
    metrics := ⟨1200, 316.71, 95, 500, 47500, 41.6, 333.38, 52.63, 240, 72⟩ }

/-- Counterexample to C4 as stated: with a configured persistent backend
and a failing renderer, the save button run reports the error, but the
backend receives NO row (it is left exactly as before, with zero rows)
and no saved id is produced — the persistent save does not proceed
without a document. -/
theorem C4_counterexample :
    (save_button_flow (some demo_backend) demo_snapshot
        (Except.error "PDF generator is not available") "uuid-1" "12:00:00" []).pdf_error_reported
      = some "PDF generator is not available" ∧
    (save_button_flow (some demo_backend) demo_snapshot
        (Except.error "PDF generator is not available") "uuid-1" "12:00:00" []).backend
      = some demo_backend ∧
    (Backend.rows <$> (save_button_flow (some demo_backend) demo_snapshot
        (Except.error "PDF generator is not available") "uuid-1" "12:00:00" []).backend)
      = some [] ∧
    (save_button_flow (some demo_backend) demo_snapshot
        (Except.error "PDF generator is not available") "uuid-1" "12:00:00" []).saved_id
      = none :=
  ⟨rfl, rfl, rfl, rfl⟩

/-- C4 amended: when rendering fails, the error is reported to the user
and the record is still added to the in-session history list, but the
save to the configured persistent backend is skipped entirely — no row is
inserted and no id returned (the code guards `_save_to_supabase` behind
`if pdf_bytes is not None`). -/
theorem C4_render_failure_skips_persistent_save (sb : Option Backend) (snapshot : Snapshot)
    (msg pdf_uuid now_str : String) (history : List HistEntry) :
    (save_button_flow sb snapshot (Except.error msg) pdf_uuid now_str history).pdf_error_reported
        = some msg ∧
    (save_button_flow sb snapshot (Except.error msg) pdf_uuid now_str history).last_pdf = none ∧
    (save_button_flow sb snapshot (Except.error msg) pdf_uuid now_str history).backend = sb ∧
    (save_button_flow sb snapshot (Except.error msg) pdf_uuid now_str history).saved_id = none ∧
    (save_button_flow sb snapshot (Except.error msg) pdf_uuid now_str history).history
        = ⟨now_str, snapshot.metrics.total_profit, snapshot.metrics.margin,
           snapshot.metrics.sell_price⟩ :: history :=
  ⟨rfl, rfl, rfl, rfl, rfl⟩

/-- C9: with no persistent backend configured, `_save_to_supabase`
returns the "unavailable" result `none` (it is a total function — no
error is raised), and the save button run still adds the record to the
in-process session history list, newest first, so the save is reflected
to the user. -/
theorem C9_unconfigured_backend_falls_back_to_session_history :
    (∀ (snapshot : Snapshot) (pdf_bytes : List ℕ),
      _save_to_supabase none snapshot pdf_bytes = (none, none)) ∧
    (∀ (snapshot : Snapshot) (pdf : List ℕ) (pdf_uuid now_str : String)
        (history : List HistEntry),
      (save_button_flow none snapshot (Except.ok pdf) pdf_uuid now_str history).saved_id = none ∧
      (save_button_flow none snapshot (Except.ok pdf) pdf_uuid now_str history).history
          = ⟨now_str, snapshot.metrics.total_profit, snapshot.metrics.margin,
             snapshot.metrics.sell_price⟩ :: history ∧
      (save_button_flow none snapshot (Except.ok pdf) pdf_uuid now_str history).last_pdf
          = some (pdf_uuid, pdf)) :=
  ⟨fun _ _ => rfl, fun _ _ _ _ _ => ⟨rfl, rfl, rfl⟩⟩

end CeramicCalc
